import Mathlib

/-!
Shallow embedding of the image compression pipeline of the
`compress-image` repository.

The embedding covers:
* the client-side preprocessor (`src/src/workers/imagePreprocess.ts` and
  the inline `preprocessImage` of the page component), which downsamples
  oversized images before upload;
* the two remote-orchestration variants: the tRPC router
  (`src/src/server/api/routers/compress.ts`, `compressRouter.compress`)
  and the Next.js route handler (`POST` of the `/api/compress` route,
  the variant carrying the PNG sanity check and the JSON/binary
  response disambiguation);
* the synthetic progress animation of the page components.

JavaScript numbers are idealised as exact rationals (`ℚ`); byte buffers
are lists of bytes (`List ℕ`), whose length is `byteLength`.  Remote
responses are supplied by an explicit "world" record, so each handler is
a pure function of its input and the world; alongside its outcome it
returns the list of network calls it performed, in order.
-/

/-- JavaScript's `Math.round` on an exact rational: round half toward
positive infinity, i.e. `⌊q + 1/2⌋`. -/
def jsRound (q : ℚ) : ℤ := ⌊q + 1/2⌋

/-- JavaScript's `m || d` for a string-or-absent value `m`: the string
when present and truthy (non-empty), the default `d` otherwise. -/
def jsOrElse (m : Option String) (d : String) : String :=
  match m with
  | none => d
  | some s => if s = "" then d else s

/-- JavaScript's `s.includes(sub)` on strings, with the conditional-call
convention of `ct?.includes(sub)`: an absent receiver yields a falsy
result. -/
def jsIncludes (m : Option String) (sub : String) : Bool :=
  match m with
  | none => false
  | some s => decide (List.IsInfix sub.toList s.toList)

/-- The supported MIME types (`SUPPORTED_MIME_TYPES` in the source). -/
inductive Mime
  | png
  | jpeg
  | jpg
  | webp
  | avif
deriving DecidableEq, Repr

/-- The MIME string of each member of the enum. -/
def Mime.str : Mime → String
  | .png => "image/png"
  | .jpeg => "image/jpeg"
  | .jpg => "image/jpg"
  | .webp => "image/webp"
  | .avif => "image/avif"

/-- The base64 alphabet, as a list of characters. -/
def b64Alphabet : List Char :=
  "ABCDEFGHIJKLMNOPQRSTUVWXYZabcdefghijklmnopqrstuvwxyz0123456789+/".toList

/-- The base64 digit for a 6-bit value. -/
def b64Char (n : ℕ) : Char := b64Alphabet.getD n 'A'

/-- Standard base64 of a byte list (`Buffer.toString("base64")`),
with `=` padding. -/
def base64Encode : List ℕ → List Char
  | [] => []
  | [a] => [b64Char (a / 4), b64Char (a % 4 * 16), '=', '=']
  | [a, b] => [b64Char (a / 4), b64Char (a % 4 * 16 + b / 16), b64Char (b % 16 * 4), '=']
  | a :: b :: c :: rest =>
      b64Char (a / 4) :: b64Char (a % 4 * 16 + b / 16) ::
      b64Char (b % 16 * 4 + c / 64) :: b64Char (c % 64) :: base64Encode rest

/-- Base64 of a byte list as a string. -/
def base64 (bs : List ℕ) : String := String.mk (base64Encode bs)

/-- The data URI built by both handlers:
`data:${outputMime};base64,${base64}`. -/
def dataUri (m : Mime) (bs : List ℕ) : String :=
  "data:" ++ m.str ++ ";base64," ++ base64 bs

/-- A data URI is never the empty string, so the truthiness check on
`result.compressedImage` in the router can never fail it. -/
theorem dataUri_ne_empty (m : Mime) (bs : List ℕ) : dataUri m bs ≠ "" := by
  intro h
  have hlen := congrArg String.length h
  simp [dataUri, String.length_append] at hlen
  exact absurd hlen.1.1.1 (by decide)

/-! ## Preprocessor

`preprocessImage` appears twice in the repository: in the dedicated
worker `src/src/workers/imagePreprocess.ts` (which throws on failure,
its `onmessage` wrapper posting an error message), and inline in the
page component, where every failure is caught and the original file is
returned.  Both share the same size gate and dimension computation.
The browser's decoding and encoding primitives are supplied by a
`CanvasEnv` record. -/

/-- A browser `File`: name, declared MIME type string, raw bytes. -/
structure JsFile where
  name : String
  type : String
  bytes : List ℕ
deriving DecidableEq, Repr

/-- The `size` of a file is its byte length. -/
def JsFile.size (f : JsFile) : ℕ := f.bytes.length

/-- The browser primitives the preprocessor calls, as oracles:
`createImageBitmap` decodes bytes to pixel dimensions or fails with a
message; `getContext2dOk` tells whether `getContext('2d')` returns a
context; `toBlob bytes w h type quality` re-encodes the decoded image
drawn at `w × h`, `none` modelling a `null` blob / rejected encode. -/
structure CanvasEnv where
  createImageBitmap : List ℕ → Except String (ℕ × ℕ)
  getContext2dOk : Bool
  toBlob : List ℕ → ℕ → ℕ → String → ℚ → Option (List ℕ)

/-- Target-dimension computation shared by both preprocessor variants
(`imagePreprocess.ts` lines 28–40, page component lines 115–127): when
either dimension exceeds 2048, the longer side becomes 2048 and the
other is scaled by the same ratio and rounded.  `jsRound` is
non-negative on these inputs, so `Int.toNat` is exact. -/
def targetDims (w h : ℕ) : ℕ × ℕ :=
  if w > 2048 ∨ h > 2048 then
    if w > h then (2048, (jsRound ((h : ℚ) / (w : ℚ) * 2048)).toNat)
    else ((jsRound ((w : ℚ) / (h : ℚ) * 2048)).toNat, 2048)
  else (w, h)

/-- The inline `preprocessImage` of the page component: files of at most
5 MiB pass through untouched; otherwise decode, resize to `targetDims`,
re-encode at quality 0.8.  Every failure — decode rejection, missing 2d
context, `null` blob — yields the original file (the `catch` returns
`file`, and `canvas.toBlob`'s callback resolves `b ?? file`). -/
def preprocessImage (env : CanvasEnv) (file : JsFile) : JsFile :=
  if file.size ≤ 5 * 1024 * 1024 then file
  else
    match env.createImageBitmap file.bytes with
    | .error _ => file
    | .ok (w0, h0) =>
      let dims := targetDims w0 h0
      if env.getContext2dOk then
        match env.toBlob file.bytes dims.1 dims.2 file.type (4/5) with
        | some bs => { name := file.name, type := file.type, bytes := bs }
        | none => { name := file.name, type := file.type, bytes := file.bytes }
      else file

/-- The worker variant of `preprocessImage`
(`src/src/workers/imagePreprocess.ts` lines 19–58): same size gate and
dimensions, but failures propagate as thrown errors instead of being
recovered. -/
def preprocessImageWorker (env : CanvasEnv) (file : JsFile) :
    Except String JsFile :=
  if file.size ≤ 5 * 1024 * 1024 then .ok file
  else
    match env.createImageBitmap file.bytes with
    | .error e => .error e
    | .ok (w0, h0) =>
      let dims := targetDims w0 h0
      if env.getContext2dOk then
        match env.toBlob file.bytes dims.1 dims.2 file.type (4/5) with
        | some bs => .ok { name := file.name, type := file.type, bytes := bs }
        | none => .error "Failed to encode blob"
      else .error "Failed to get canvas context"

/-! ## Orchestrators

Both server-side handlers drive the same two-phase remote protocol
against the external service.  A `World` record supplies the remote
responses: the initial image fetch, the phase-1 shrink call, the
phase-2 conversion call (with its declared content type, its inline
binary body, and its JSON descriptor), and a function giving the
response of any final GET by URL.  Each handler returns its outcome
together with the ordered list of network calls it made. -/

/-- An HTTP-like fetch response: success flag and body bytes. -/
structure FetchRes where
  ok : Bool
  body : List ℕ

/-- The `output` descriptor of a successful service response
(`TinyPNGResponse.output`): declared size, type and location URL. -/
structure TinyOut where
  size : ℕ
  type : String
  url : String

/-- One network call of a handler, in the order performed. -/
inductive Call
  | fetchImage
  | shrinkPost
  | convertPost (url : String)
  | bytesFetch (url : String)
deriving DecidableEq, Repr

/-- Whether a call is the phase-2 conversion POST. -/
def Call.isConvert : Call → Bool
  | .convertPost _ => true
  | _ => false

/-- Error classification of a failed request: the tRPC router throws
`TRPCError` with these codes; the route handler returns the matching
HTTP statuses 400 and 500. -/
inductive ErrCode
  | badRequest
  | internalServerError
deriving DecidableEq, Repr

/-- The success envelope both handlers return. -/
structure CompressionResult where
  success : Bool
  originalSize : ℕ
  compressedSize : ℕ
  savedBytes : ℤ
  compressionRatio : ℤ
  compressedImage : String
  originalType : Mime
  outputType : Mime
deriving DecidableEq, Repr

/-- Outcome of a handler: a success envelope or a classified error with
its message. -/
inductive ApiOut
  | ok (r : CompressionResult)
  | err (code : ErrCode) (message : String)
deriving DecidableEq, Repr

/-- The `savedBytes` computation shared by both handlers:
`Math.max(0, originalSize - compressedSize)`. -/
def savedBytesCalc (orig comp : ℕ) : ℤ := max 0 ((orig : ℤ) - (comp : ℤ))

/-- The `compressionRatio` computation shared by both handlers:
`Math.round(((originalSize - compressedSize) / originalSize) * 100)`,
on the signed difference (not on `savedBytes`).  Division by zero
(an empty original) yields NaN in JavaScript and never occurs with a
non-empty image; the rational model maps it to 0. -/
def compressionRatioCalc (orig comp : ℕ) : ℤ :=
  jsRound (((orig : ℚ) - (comp : ℚ)) / (orig : ℚ) * 100)

/-- The success envelope as both handlers assemble it from the original
buffer and the final buffer, with the declared original and output
types. -/
def assembleResult (origType outType : Mime) (orig final : List ℕ) :
    CompressionResult where
  success := true
  originalSize := orig.length
  compressedSize := final.length
  savedBytes := savedBytesCalc orig.length final.length
  compressionRatio := compressionRatioCalc orig.length final.length
  compressedImage := dataUri outType final
  originalType := origType
  outputType := outType

/-- The remote world a handler runs against: `imageFetch` answers the
initial image download, `shrinkOk`/`shrinkErr`/`shrinkOut` the phase-1
shrink POST (`shrinkErr` is the `message` field of its error JSON),
`convertOk`/`convertContentType`/`convertBody`/`convertOut` the phase-2
conversion POST (body bytes when binary, descriptor when JSON), and
`fetchUrl` the response of a final GET at a given URL. -/
structure World where
  imageFetch : FetchRes
  shrinkOk : Bool
  shrinkErr : Option String
  shrinkOut : TinyOut
  convertOk : Bool
  convertContentType : Option String
  convertBody : List ℕ
  convertOut : TinyOut
  fetchUrl : String → FetchRes

/-- Request fields of the tRPC router's `compress` mutation that the
orchestration branches on (the URL, filename and resize/quality options
do not affect control flow in the model). -/
structure RouterInput where
  mimeType : Mime
  outputFormat : Mime
  preserveMetadata : Bool
deriving DecidableEq, Repr

/-- Request fields of the route handler's `POST`. -/
structure RouteInput where
  mimeType : Mime
  outputFormat : Mime
deriving DecidableEq, Repr

/-- Final part of the tRPC router (`compress.ts` lines 140–176): fetch
`finalUrl`, then assemble the result envelope; the dead-end truthiness
check on `result.compressedImage` is kept. -/
def routerFinalize (input : RouterInput) (w : World) (imageBuffer : List ℕ)
    (finalUrl : String) (trace : List Call) : ApiOut × List Call :=
  let res := w.fetchUrl finalUrl
  let trace := trace ++ [Call.bytesFetch finalUrl]
  if res.ok = false then
    (.err .internalServerError "Failed to fetch compressed image", trace)
  else
    let result := assembleResult input.mimeType input.outputFormat imageBuffer res.body
    if result.compressedImage = "" then
      (.err .internalServerError "Failed to generate compressed image", trace)
    else
      (.ok result, trace)

/-- The tRPC router's `compress` mutation
(`src/src/server/api/routers/compress.ts` lines 62–185).  Phase 1 posts
the image to the shrink endpoint; when `outputFormat ≠ mimeType` a
phase-2 conversion POST follows, whose response is disambiguated by
content type: a JSON descriptor redirects the final fetch to its URL,
while a binary body short-circuits with zero metrics.  The initial
fetch failure is a plain `Error` caught by the outer handler and
wrapped as an internal error. -/
def routerCompress (input : RouterInput) (w : World) : ApiOut × List Call :=
  if w.imageFetch.ok = false then
    (.err .internalServerError "Failed to fetch image from URL", [Call.fetchImage])
  else
    let imageBuffer := w.imageFetch.body
    if w.shrinkOk = false then
      (.err .badRequest (jsOrElse w.shrinkErr "Failed to compress image"),
       [Call.fetchImage, Call.shrinkPost])
    else
      if input.outputFormat ≠ input.mimeType then
        let trace := [Call.fetchImage, Call.shrinkPost, Call.convertPost w.shrinkOut.url]
        if w.convertOk = false then
          (.err .badRequest "Failed to convert image format", trace)
        else if jsIncludes w.convertContentType "application/json" then
          routerFinalize input w imageBuffer w.convertOut.url trace
        else
          (.ok { success := true
                 originalSize := w.convertBody.length
                 compressedSize := w.convertBody.length
                 savedBytes := 0
                 compressionRatio := 0
                 compressedImage := dataUri input.outputFormat w.convertBody
                 originalType := input.mimeType
                 outputType := input.outputFormat }, trace)
      else
        routerFinalize input w imageBuffer w.shrinkOut.url
          [Call.fetchImage, Call.shrinkPost]

/-- Sanity check and assembly of the route handler's conversion path
(route `POST` lines 286–310): when the requested output is `image/png`
and the final buffer is smaller than 80% of the original, the
conversion is treated as a quality violation and rejected. -/
def routeSanityAssemble (input : RouteInput) (orig final : List ℕ)
    (trace : List Call) : ApiOut × List Call :=
  if input.outputFormat = Mime.png ∧
      ((final.length : ℚ) / (orig.length : ℚ) < 4/5) then
    (.err .badRequest "PNG conversion resulted in unexpected quality loss", trace)
  else
    (.ok (assembleResult input.mimeType input.outputFormat orig final), trace)

/-- The route handler's `POST` (the `/api/compress` route variant with
the JSON/binary disambiguation and the PNG sanity check).  Phase 1 as
in the router; in the conversion path the phase-2 response is either a
JSON descriptor — requiring one more fetch of its URL — or the final
binary body itself; either way the PNG sanity check runs before the
envelope is assembled.  Without conversion the phase-1 URL is fetched
directly. -/
def routePost (input : RouteInput) (w : World) : ApiOut × List Call :=
  if w.imageFetch.ok = false then
    (.err .badRequest "Failed to fetch image", [Call.fetchImage])
  else if w.shrinkOk = false then
    (.err .badRequest (jsOrElse w.shrinkErr "Failed to compress image"),
     [Call.fetchImage, Call.shrinkPost])
  else if input.outputFormat ≠ input.mimeType then
    let trace := [Call.fetchImage, Call.shrinkPost, Call.convertPost w.shrinkOut.url]
    if w.convertOk = false then
      (.err .badRequest "Failed to convert image format", trace)
    else if jsIncludes w.convertContentType "application/json" then
      let res := w.fetchUrl w.convertOut.url
      let trace := trace ++ [Call.bytesFetch w.convertOut.url]
      if res.ok = false then
        (.err .badRequest "Failed to fetch converted image", trace)
      else
        routeSanityAssemble input w.imageFetch.body res.body trace
    else
      routeSanityAssemble input w.imageFetch.body w.convertBody trace
  else
    let res := w.fetchUrl w.shrinkOut.url
    let trace := [Call.fetchImage, Call.shrinkPost, Call.bytesFetch w.shrinkOut.url]
    if res.ok = false then
      (.err .badRequest "Failed to fetch compressed image", trace)
    else
      (.ok (assembleResult input.mimeType input.mimeType w.imageFetch.body res.body),
       trace)

/-- The `finalImageBuffer` of the route handler's conversion path: the
re-fetched descriptor target when the phase-2 response was JSON, the
inline binary body otherwise. -/
def phase2FinalBuffer (w : World) : List ℕ :=
  if jsIncludes w.convertContentType "application/json" then
    (w.fetchUrl w.convertOut.url).body
  else
    w.convertBody

/-! ## Synthetic progress

While the remote call is in flight the page animates a synthetic
percentage.  The first page variant maps elapsed milliseconds through
`Math.min((elapsed / 3000) * 95, 95)`; the second variant through
`Math.min(30 + (elapsed / 15000) * 69, 99)`.  Only the success handler
(`onSuccess` / the post-fetch code) sets the percentage to 100. -/

/-- The `animate` frame value of the first page variant
(lines 179–194): `Math.min((elapsed / duration) * 95, 95)` with
`duration = 3000`. -/
def animateProgress (elapsed : ℚ) : ℚ := min (elapsed / 3000 * 95) 95

/-- The `updateProgress` frame value of the second page variant
(lines 160–184): `Math.min(30 + (elapsed / minTime) * 69, 99)` with
`minTime = 15000`. -/
def updateProgressValue (elapsed : ℚ) : ℚ := min (30 + elapsed / 15000 * 69) 99

/-- An event acting on the displayed percentage during the compressing
phase: an animation frame at a given elapsed time, or the completion
signal of the mutation's success handler. -/
inductive ProgressEvent
  | frame (elapsed : ℚ)
  | completed
deriving DecidableEq

/-- One `setProgress` step: a frame writes the synthetic value for its
elapsed time, the completion signal writes 100. -/
def progressStep (_p : ℚ) (e : ProgressEvent) : ℚ :=
  match e with
  | .frame elapsed => animateProgress elapsed
  | .completed => 100

/-- The displayed percentage after a sequence of events, starting from
the `setProgress(0)` that opens the compressing phase. -/
def runProgress (events : List ProgressEvent) : ℚ :=
  events.foldl progressStep 0

/-- Helper for the progress cap: a fold over completion-free events
stays at or below 95 when it starts there. -/
theorem foldl_progress_le (events : List ProgressEvent) :
    ∀ p : ℚ, (∀ e ∈ events, e ≠ ProgressEvent.completed) → p ≤ 95 →
      events.foldl progressStep p ≤ 95 := by
  induction events with
  | nil => intro p _ hp; simpa using hp
  | cons e rest ih =>
    intro p hno hp
    have he : e ≠ ProgressEvent.completed := hno e (by simp)
    have hrest : ∀ e ∈ rest, e ≠ ProgressEvent.completed := by
      intro x hx; exact hno x (by simp [hx])
    cases e with
    | frame elapsed =>
      exact ih (progressStep p (.frame elapsed)) hrest (min_le_right _ _)
    | completed => exact absurd rfl he

/-! ## Shared arithmetic lemmas about `jsRound` -/

/-- Rounding a non-negative rational is non-negative. -/
theorem jsRound_nonneg (q : ℚ) (h : 0 ≤ q) : 0 ≤ jsRound q := by
  unfold jsRound
  exact Int.floor_nonneg.mpr (by linarith)

/-- Rounding a rational at most an integer `c` stays at most `c`. -/
theorem jsRound_le (q : ℚ) (c : ℤ) (h : q ≤ (c : ℚ)) : jsRound q ≤ c := by
  unfold jsRound
  have h2 : ⌊q + 1/2⌋ ≤ ⌊(c : ℚ) + 1/2⌋ := Int.floor_le_floor (by linarith)
  have h3 : ⌊(c : ℚ) + 1/2⌋ = c := by
    rw [add_comm, Int.floor_add_int]
    norm_num
  omega

/-! ## Claim theorems -/

/-- A trivial canvas environment for concrete evaluations. -/
def cEnv : CanvasEnv where
  createImageBitmap := fun _ => Except.error "decode failed"
  getContext2dOk := false
  toBlob := fun _ _ _ _ _ => none

/-- A small concrete file (3 bytes, well under 5 MiB). -/
def cFileSmall : JsFile := { name := "a.png", type := "image/png", bytes := [1, 2, 3] }

/-- C4: an input asset of at most 5 MiB (5·1024·1024 bytes) passes
through both preprocessor variants byte-identical, with the same MIME
type, before any decode or encode is attempted. -/
theorem preprocess_small_passthrough (env : CanvasEnv) (file : JsFile)
    (h : file.size ≤ 5 * 1024 * 1024) :
    preprocessImage env file = file ∧
    preprocessImageWorker env file = Except.ok file := by
  constructor
  · simp [preprocessImage, h]
  · simp [preprocessImageWorker, h]

/-- Witness for C4 at a concrete 3-byte file. -/
theorem preprocess_small_passthrough_witness :
    preprocessImage cEnv cFileSmall = cFileSmall ∧
    preprocessImageWorker cEnv cFileSmall = Except.ok cFileSmall :=
  preprocess_small_passthrough cEnv cFileSmall (by decide)

/-- C6: in the page component's preprocessor every failure is recovered
by returning the original file: a decode rejection, a missing 2d
context, and a `null` encode result all yield the input unchanged, and
the function is total (it never propagates an error). -/
theorem preprocess_fail_open (env : CanvasEnv) (file : JsFile) :
    (∀ e, env.createImageBitmap file.bytes = Except.error e →
      preprocessImage env file = file) ∧
    (env.getContext2dOk = false → preprocessImage env file = file) ∧
    (∀ w h, env.createImageBitmap file.bytes = Except.ok (w, h) →
      env.toBlob file.bytes (targetDims w h).1 (targetDims w h).2 file.type (4/5) = none →
      preprocessImage env file = file) := by
  by_cases hs : file.size ≤ 5 * 1024 * 1024
  · refine ⟨?_, ?_, ?_⟩ <;> intros <;> simp [preprocessImage, hs]
  · refine ⟨?_, ?_, ?_⟩
    · intro e he
      simp [preprocessImage, hs, he]
    · intro hctx
      cases hbm : env.createImageBitmap file.bytes with
      | error e => simp [preprocessImage, hs, hbm]
      | ok pr =>
        cases pr with
        | mk w h => simp [preprocessImage, hs, hbm, hctx]
    · intro w h hbm hnone
      simp [preprocessImage, hs, hbm, hnone]

/-- C5: when a decoded image has a dimension beyond 2048, the target
dimensions make the longer side exactly 2048 and the shorter side the
rounded proportional value, so the larger target dimension is 2048;
when both dimensions are within 2048 they are left unchanged. -/
theorem targetDims_resize (w h : ℕ) (hw : 0 < w) (hh : 0 < h) :
    (2048 < max w h →
      max (targetDims w h).1 (targetDims w h).2 = 2048 ∧
      min (targetDims w h).1 (targetDims w h).2
        = (jsRound (((min w h : ℕ) : ℚ) / ((max w h : ℕ) : ℚ) * 2048)).toNat) ∧
    (w ≤ 2048 → h ≤ 2048 → targetDims w h = (w, h)) := by
  constructor
  · intro hbig
    have hcond : w > 2048 ∨ h > 2048 := lt_max_iff.mp hbig
    by_cases hwh : w > h
    · have hmax : max w h = w := max_eq_left (le_of_lt hwh)
      have hmin : min w h = h := min_eq_right (le_of_lt hwh)
      have hqle : (h : ℚ) / (w : ℚ) * 2048 ≤ ((2048 : ℤ) : ℚ) := by
        have h1 : (h : ℚ) / (w : ℚ) ≤ 1 := by
          rw [div_le_one (by exact_mod_cast hw)]
          exact_mod_cast le_of_lt hwh
        push_cast
        nlinarith
      have hs : (jsRound ((h : ℚ) / (w : ℚ) * 2048)).toNat ≤ 2048 := by
        have := jsRound_le _ _ hqle
        omega
      rw [hmin, hmax]
      simp only [targetDims, if_pos hcond, if_pos hwh]
      exact ⟨max_eq_left hs, min_eq_right hs⟩
    · push_neg at hwh
      have hmax : max w h = h := max_eq_right hwh
      have hmin : min w h = w := min_eq_left hwh
      have hqle : (w : ℚ) / (h : ℚ) * 2048 ≤ ((2048 : ℤ) : ℚ) := by
        have h1 : (w : ℚ) / (h : ℚ) ≤ 1 := by
          rw [div_le_one (by exact_mod_cast hh)]
          exact_mod_cast hwh
        push_cast
        nlinarith
      have hs : (jsRound ((w : ℚ) / (h : ℚ) * 2048)).toNat ≤ 2048 := by
        have := jsRound_le _ _ hqle
        omega
      rw [hmin, hmax]
      simp only [targetDims, if_pos hcond, if_neg (by omega : ¬ w > h)]
      exact ⟨max_eq_right hs, min_eq_left hs⟩
  · intro h1 h2
    rw [targetDims, if_neg (by omega)]

/-- Witness for C5 at the spec's example: a 4096 × 2048 image. -/
theorem targetDims_resize_witness :
    (2048 < max 4096 2048 →
      max (targetDims 4096 2048).1 (targetDims 4096 2048).2 = 2048 ∧
      min (targetDims 4096 2048).1 (targetDims 4096 2048).2
        = (jsRound (((min 4096 2048 : ℕ) : ℚ) / ((max 4096 2048 : ℕ) : ℚ) * 2048)).toNat) ∧
    (4096 ≤ 2048 → 2048 ≤ 2048 → targetDims 4096 2048 = (4096, 2048)) :=
  targetDims_resize 4096 2048 (by norm_num) (by norm_num)

/-- C8: each synthetic progress formula is monotone in elapsed time and
capped below 100 (at 95 for the first variant, 99 for the second); a
run of frame events alone never reaches 100, and 100 arrives exactly
with the completion signal. -/
theorem progress_capped (e1 e2 : ℚ) (h12 : e1 ≤ e2)
    (events : List ProgressEvent)
    (hno : ∀ e ∈ events, e ≠ ProgressEvent.completed) :
    animateProgress e1 ≤ animateProgress e2 ∧
    updateProgressValue e1 ≤ updateProgressValue e2 ∧
    animateProgress e2 ≤ 95 ∧
    updateProgressValue e2 ≤ 99 ∧
    runProgress events ≤ 95 ∧
    runProgress (events ++ [ProgressEvent.completed]) = 100 := by
  refine ⟨?_, ?_, min_le_right _ _, min_le_right _ _, ?_, ?_⟩
  · exact min_le_min (by linarith) le_rfl
  · exact min_le_min (by linarith) le_rfl
  · exact foldl_progress_le events 0 hno (by norm_num)
  · simp [runProgress, List.foldl_append, progressStep]

/-- Witness for C8 at concrete times and a single-frame run. -/
theorem progress_capped_witness :
    animateProgress 1 ≤ animateProgress 2 ∧
    updateProgressValue 1 ≤ updateProgressValue 2 ∧
    animateProgress 2 ≤ 95 ∧
    updateProgressValue 2 ≤ 99 ∧
    runProgress [ProgressEvent.frame 5] ≤ 95 ∧
    runProgress ([ProgressEvent.frame 5] ++ [ProgressEvent.completed]) = 100 :=
  progress_capped 1 2 (by norm_num) [ProgressEvent.frame 5] (by decide)

/-- C9: when the phase-1 shrink call is rejected, both handlers stop
with a bad-request error whose message is the upstream `message` when
present and truthy, and the fixed default otherwise; the trace shows no
call after the shrink POST. -/
theorem shrink_rejected (i1 : RouterInput) (i2 : RouteInput) (w : World)
    (hi : w.imageFetch.ok = true) (hs : w.shrinkOk = false) :
    routerCompress i1 w =
      (ApiOut.err ErrCode.badRequest (jsOrElse w.shrinkErr "Failed to compress image"),
       [Call.fetchImage, Call.shrinkPost]) ∧
    routePost i2 w =
      (ApiOut.err ErrCode.badRequest (jsOrElse w.shrinkErr "Failed to compress image"),
       [Call.fetchImage, Call.shrinkPost]) := by
  constructor
  · simp [routerCompress, hi, hs]
  · simp [routePost, hi, hs]

/-- A concrete world whose shrink call fails with an upstream message. -/
def cWorldShrinkFail : World where
  imageFetch := { ok := true, body := [0, 1] }
  shrinkOk := false
  shrinkErr := some "Bad input"
  shrinkOut := { size := 0, type := "", url := "u" }
  convertOk := true
  convertContentType := none
  convertBody := []
  convertOut := { size := 0, type := "", url := "v" }
  fetchUrl := fun _ => { ok := true, body := [] }

/-- A concrete router request asking for WebP from a PNG source. -/
def cInRouterConv : RouterInput where
  mimeType := Mime.png
  outputFormat := Mime.webp
  preserveMetadata := false

/-- A concrete route request asking for WebP from a PNG source. -/
def cInRouteConv : RouteInput where
  mimeType := Mime.png
  outputFormat := Mime.webp

/-- A concrete router request whose output format equals its source. -/
def cInRouterSame : RouterInput where
  mimeType := Mime.png
  outputFormat := Mime.png
  preserveMetadata := false

/-- A concrete route request whose output format equals its source. -/
def cInRouteSame : RouteInput where
  mimeType := Mime.png
  outputFormat := Mime.png

/-- Witness for C9 in the concrete failing world. -/
theorem shrink_rejected_witness :
    routerCompress cInRouterConv cWorldShrinkFail =
      (ApiOut.err ErrCode.badRequest
        (jsOrElse cWorldShrinkFail.shrinkErr "Failed to compress image"),
       [Call.fetchImage, Call.shrinkPost]) ∧
    routePost cInRouteConv cWorldShrinkFail =
      (ApiOut.err ErrCode.badRequest
        (jsOrElse cWorldShrinkFail.shrinkErr "Failed to compress image"),
       [Call.fetchImage, Call.shrinkPost]) :=
  shrink_rejected cInRouterConv cInRouteConv cWorldShrinkFail rfl rfl

/-- The trace of the router's final fetch-and-assemble step appends
exactly the final GET, in every branch. -/
theorem routerFinalize_trace (i : RouterInput) (w : World) (buf : List ℕ)
    (url : String) (tr : List Call) :
    (routerFinalize i w buf url tr).2 = tr ++ [Call.bytesFetch url] := by
  dsimp only [routerFinalize]
  split
  · rfl
  · split <;> rfl

/-- A successful outcome of the router's final step is the assembled
envelope for the fetched bytes. -/
theorem routerFinalize_ok (i : RouterInput) (w : World) (buf : List ℕ)
    (url : String) (tr : List Call) (r : CompressionResult) :
    (routerFinalize i w buf url tr).1 = ApiOut.ok r →
    r = assembleResult i.mimeType i.outputFormat buf (w.fetchUrl url).body := by
  dsimp only [routerFinalize]
  intro h
  split at h
  · simp at h
  · split at h
    · simp at h
    · simp at h
      exact h.symm

/-- C7: when the requested output format equals the source MIME type,
neither handler performs a conversion POST, any successful result has
`outputType = originalType`, and (once the first two phases succeeded)
the phase-1 location URL is fetched directly. -/
theorem no_convert_path (i1 : RouterInput) (i2 : RouteInput) (w : World)
    (h1 : i1.outputFormat = i1.mimeType) (h2 : i2.outputFormat = i2.mimeType) :
    (∀ c ∈ (routerCompress i1 w).2, c.isConvert = false) ∧
    (∀ r, (routerCompress i1 w).1 = ApiOut.ok r → r.outputType = r.originalType) ∧
    (w.imageFetch.ok = true → w.shrinkOk = true →
      Call.bytesFetch w.shrinkOut.url ∈ (routerCompress i1 w).2) ∧
    (∀ c ∈ (routePost i2 w).2, c.isConvert = false) ∧
    (∀ r, (routePost i2 w).1 = ApiOut.ok r → r.outputType = r.originalType) ∧
    (w.imageFetch.ok = true → w.shrinkOk = true →
      Call.bytesFetch w.shrinkOut.url ∈ (routePost i2 w).2) := by
  by_cases hi : w.imageFetch.ok = false
  · simp [routerCompress, routePost, hi, Call.isConvert]
  · by_cases hs : w.shrinkOk = false
    · simp [routerCompress, routePost, hi, hs, Call.isConvert]
    · have hr : routerCompress i1 w
          = routerFinalize i1 w w.imageFetch.body w.shrinkOut.url
              [Call.fetchImage, Call.shrinkPost] := by
        simp [routerCompress, hi, hs, h1]
      have hp : routePost i2 w
          = (if (w.fetchUrl w.shrinkOut.url).ok = false then
              (ApiOut.err ErrCode.badRequest "Failed to fetch compressed image",
               [Call.fetchImage, Call.shrinkPost, Call.bytesFetch w.shrinkOut.url])
             else
              (ApiOut.ok (assembleResult i2.mimeType i2.mimeType
                  w.imageFetch.body (w.fetchUrl w.shrinkOut.url).body),
               [Call.fetchImage, Call.shrinkPost, Call.bytesFetch w.shrinkOut.url])) := by
        simp [routePost, hi, hs, h2]
      refine ⟨?_, ?_, ?_, ?_, ?_, ?_⟩
      · intro c hc
        rw [hr, routerFinalize_trace] at hc
        simp at hc
        rcases hc with hc | hc | hc <;> subst hc <;> rfl
      · intro r hrok
        rw [hr] at hrok
        have := routerFinalize_ok _ _ _ _ _ _ hrok
        subst this
        simp [assembleResult, h1]
      · intro _ _
        rw [hr, routerFinalize_trace]
        simp
      · intro c hc
        rw [hp] at hc
        split at hc <;> simp at hc <;>
          rcases hc with hc | hc | hc <;> subst hc <;> rfl
      · intro r hrok
        rw [hp] at hrok
        split at hrok
        · simp at hrok
        · simp at hrok
          subst hrok
          simp [assembleResult]
      · intro _ _
        rw [hp]
        split <;> simp

/-- A concrete world where every remote call succeeds. -/
def cWorldOk : World where
  imageFetch := { ok := true, body := [0, 1, 2, 3] }
  shrinkOk := true
  shrinkErr := none
  shrinkOut := { size := 2, type := "image/png", url := "phase1" }
  convertOk := true
  convertContentType := some "application/json"
  convertBody := [9]
  convertOut := { size := 1, type := "image/webp", url := "phase2" }
  fetchUrl := fun _ => { ok := true, body := [0, 1] }

/-- Witness for C7 in the all-success world with matching formats. -/
theorem no_convert_path_witness :
    (∀ c ∈ (routerCompress cInRouterSame cWorldOk).2, c.isConvert = false) ∧
    (∀ r, (routerCompress cInRouterSame cWorldOk).1 = ApiOut.ok r →
      r.outputType = r.originalType) ∧
    (cWorldOk.imageFetch.ok = true → cWorldOk.shrinkOk = true →
      Call.bytesFetch cWorldOk.shrinkOut.url ∈ (routerCompress cInRouterSame cWorldOk).2) ∧
    (∀ c ∈ (routePost cInRouteSame cWorldOk).2, c.isConvert = false) ∧
    (∀ r, (routePost cInRouteSame cWorldOk).1 = ApiOut.ok r →
      r.outputType = r.originalType) ∧
    (cWorldOk.imageFetch.ok = true → cWorldOk.shrinkOk = true →
      Call.bytesFetch cWorldOk.shrinkOut.url ∈ (routePost cInRouteSame cWorldOk).2) :=
  no_convert_path cInRouterSame cInRouteSame cWorldOk rfl rfl

/-- Rounding characterisation: `jsRound q = n` when `q + 1/2` lies in
`[n, n+1)`. -/
theorem jsRound_eq (q : ℚ) (n : ℤ) (h1 : (n : ℚ) ≤ q + 1/2)
    (h2 : q + 1/2 < n + 1) : jsRound q = n := by
  unfold jsRound
  exact Int.floor_eq_iff.mpr ⟨h1, h2⟩

/-- C2: in the route handler, a conversion to `image/png` whose final
buffer is smaller than 80% of the original image is rejected as a
quality violation — the `ConversionSuspect` outcome — instead of
producing a success envelope. -/
theorem png_sanity (input : RouteInput) (w : World)
    (hout : input.outputFormat = Mime.png)
    (hmt : input.mimeType ≠ Mime.png)
    (hi : w.imageFetch.ok = true) (hs : w.shrinkOk = true)
    (hc : w.convertOk = true)
    (hjson : jsIncludes w.convertContentType "application/json" = true →
      (w.fetchUrl w.convertOut.url).ok = true)
    (hsize : ((phase2FinalBuffer w).length : ℚ)
      < 4/5 * (w.imageFetch.body.length : ℚ)) :
    (routePost input w).1
      = ApiOut.err ErrCode.badRequest
          "PNG conversion resulted in unexpected quality loss" := by
  have hne : input.outputFormat ≠ input.mimeType := by
    rw [hout]
    exact fun hcontra => hmt hcontra.symm
  have hlen0 : (0 : ℚ) ≤ ((phase2FinalBuffer w).length : ℚ) := by positivity
  have horig : (0 : ℚ) < (w.imageFetch.body.length : ℚ) := by nlinarith
  have hdiv : ((phase2FinalBuffer w).length : ℚ)
      / (w.imageFetch.body.length : ℚ) < 4/5 := by
    rw [div_lt_iff₀ horig]
    linarith
  by_cases hct : jsIncludes w.convertContentType "application/json" = true
  · have hfok := hjson hct
    have hfinal : phase2FinalBuffer w = (w.fetchUrl w.convertOut.url).body := by
      simp [phase2FinalBuffer, hct]
    rw [hfinal] at hdiv
    simp [routePost, hi, hs, hne, hc, hct, hfok, routeSanityAssemble, hout, hdiv,
      Ne.symm hmt]
  · have hct' : jsIncludes w.convertContentType "application/json" = false := by
      simpa using hct
    have hfinal : phase2FinalBuffer w = w.convertBody := by
      simp [phase2FinalBuffer, hct']
    rw [hfinal] at hdiv
    simp [routePost, hi, hs, hne, hc, hct', routeSanityAssemble, hout, hdiv,
      Ne.symm hmt]

/-- A concrete route request converting WebP to PNG. -/
def cInWebpToPng : RouteInput where
  mimeType := Mime.webp
  outputFormat := Mime.png

/-- A concrete world whose PNG conversion shrinks the image to 10% of
the original, delivered as an inline binary body. -/
def cWorldShrunkPng : World where
  imageFetch := { ok := true, body := List.replicate 100 7 }
  shrinkOk := true
  shrinkErr := none
  shrinkOut := { size := 80, type := "image/webp", url := "s" }
  convertOk := true
  convertContentType := some "image/png"
  convertBody := List.replicate 10 1
  convertOut := { size := 0, type := "", url := "d" }
  fetchUrl := fun _ => { ok := true, body := [] }

/-- Witness for C2: the 100-byte original converted to a 10-byte PNG is
rejected. -/
theorem png_sanity_witness :
    (routePost cInWebpToPng cWorldShrunkPng).1
      = ApiOut.err ErrCode.badRequest
          "PNG conversion resulted in unexpected quality loss" :=
  png_sanity cInWebpToPng cWorldShrunkPng rfl (by decide) rfl rfl rfl
    (fun _ => rfl)
    (by
      have h : phase2FinalBuffer cWorldShrunkPng = List.replicate 10 1 := rfl
      rw [h]
      norm_num [cWorldShrunkPng])

/-- C3: in the tRPC router, a phase-2 response whose declared content
type is not JSON short-circuits: the handler returns a success envelope
with `savedBytes = 0` and `compressionRatio = 0` right after the
conversion POST, whatever the actual sizes are. -/
theorem binary_short_circuit (input : RouterInput) (w : World)
    (hi : w.imageFetch.ok = true) (hs : w.shrinkOk = true)
    (hconv : input.outputFormat ≠ input.mimeType) (hc : w.convertOk = true)
    (hct : jsIncludes w.convertContentType "application/json" = false) :
    ∃ r, routerCompress input w
        = (ApiOut.ok r, [Call.fetchImage, Call.shrinkPost,
            Call.convertPost w.shrinkOut.url]) ∧
      r.savedBytes = 0 ∧ r.compressionRatio = 0 := by
  refine ⟨{ success := true
            originalSize := w.convertBody.length
            compressedSize := w.convertBody.length
            savedBytes := 0
            compressionRatio := 0
            compressedImage := dataUri input.outputFormat w.convertBody
            originalType := input.mimeType
            outputType := input.outputFormat }, ?_, rfl, rfl⟩
  simp [routerCompress, hi, hs, hconv, hc, hct]

/-- A concrete world whose phase-2 response is an inline binary WebP. -/
def cWorldBinary : World where
  imageFetch := { ok := true, body := [5, 5, 5, 5] }
  shrinkOk := true
  shrinkErr := none
  shrinkOut := { size := 2, type := "image/png", url := "p1" }
  convertOk := true
  convertContentType := some "image/webp"
  convertBody := [1, 2]
  convertOut := { size := 2, type := "image/webp", url := "p2" }
  fetchUrl := fun _ => { ok := true, body := [] }

/-- Witness for C3 in the binary-response world. -/
theorem binary_short_circuit_witness :
    ∃ r, routerCompress cInRouterConv cWorldBinary
        = (ApiOut.ok r, [Call.fetchImage, Call.shrinkPost,
            Call.convertPost cWorldBinary.shrinkOut.url]) ∧
      r.savedBytes = 0 ∧ r.compressionRatio = 0 :=
  binary_short_circuit cInRouterConv cWorldBinary rfl rfl (by decide) rfl
    (by decide)

/-- C10: in the router's binary short-circuit path the returned
`originalSize` and `compressedSize` are both the converted payload's
byte length, so `originalSize` differs from the true input length
whenever the two lengths differ. -/
theorem binary_sizes (input : RouterInput) (w : World)
    (hi : w.imageFetch.ok = true) (hs : w.shrinkOk = true)
    (hconv : input.outputFormat ≠ input.mimeType) (hc : w.convertOk = true)
    (hct : jsIncludes w.convertContentType "application/json" = false) :
    ∃ r, (routerCompress input w).1 = ApiOut.ok r ∧
      r.originalSize = w.convertBody.length ∧
      r.compressedSize = w.convertBody.length ∧
      (w.convertBody.length ≠ w.imageFetch.body.length →
        r.originalSize ≠ w.imageFetch.body.length) := by
  refine ⟨{ success := true
            originalSize := w.convertBody.length
            compressedSize := w.convertBody.length
            savedBytes := 0
            compressionRatio := 0
            compressedImage := dataUri input.outputFormat w.convertBody
            originalType := input.mimeType
            outputType := input.outputFormat }, ?_, rfl, rfl, fun hne => hne⟩
  simp [routerCompress, hi, hs, hconv, hc, hct]

/-- Witness for C10 in the binary-response world: the reported original
size is the 2-byte payload, not the 4-byte input. -/
theorem binary_sizes_witness :
    ∃ r, (routerCompress cInRouterConv cWorldBinary).1 = ApiOut.ok r ∧
      r.originalSize = cWorldBinary.convertBody.length ∧
      r.compressedSize = cWorldBinary.convertBody.length ∧
      (cWorldBinary.convertBody.length ≠ cWorldBinary.imageFetch.body.length →
        r.originalSize ≠ cWorldBinary.imageFetch.body.length) :=
  binary_sizes cInRouterConv cWorldBinary rfl rfl (by decide) rfl (by decide)

/-- A concrete no-conversion world whose final fetch returns a payload
twice as large as the 100-byte original. -/
def cWorldGrew : World where
  imageFetch := { ok := true, body := List.replicate 100 0 }
  shrinkOk := true
  shrinkErr := none
  shrinkOut := { size := 120, type := "image/png", url := "u1" }
  convertOk := true
  convertContentType := none
  convertBody := []
  convertOut := { size := 0, type := "", url := "u2" }
  fetchUrl := fun _ => { ok := true, body := List.replicate 200 0 }

/-- The `compressionRatio` of a successful outcome, when there is one. -/
def okRatio : ApiOut → Option ℤ
  | .ok r => some r.compressionRatio
  | .err _ _ => none

/-- In the grew-on-fetch world the router succeeds and assembles the
envelope from the 100-byte original and the 200-byte final payload. -/
theorem routerCompress_cWorldGrew :
    (routerCompress cInRouterSame cWorldGrew).1
      = ApiOut.ok (assembleResult Mime.png Mime.png
          (List.replicate 100 0) (List.replicate 200 0)) := by
  have hr : routerCompress cInRouterSame cWorldGrew
      = routerFinalize cInRouterSame cWorldGrew (List.replicate 100 0) "u1"
          [Call.fetchImage, Call.shrinkPost] := by
    simp [routerCompress, cInRouterSame, cWorldGrew]
  rw [hr]
  dsimp only [routerFinalize]
  have hf : cWorldGrew.fetchUrl "u1" = FetchRes.mk true (List.replicate 200 0) := rfl
  rw [hf]
  rw [if_neg (by decide : ¬ ((FetchRes.mk true (List.replicate 200 0)).ok = false))]
  rw [if_neg (show ¬ ((assembleResult cInRouterSame.mimeType cInRouterSame.outputFormat
      (List.replicate 100 0) (FetchRes.mk true (List.replicate 200 0)).body).compressedImage = "")
    from dataUri_ne_empty _ _)]
  rfl

/-- The ratio computation at the concrete pair (100, 200). -/
theorem ratioCalc_at_100_200 : compressionRatioCalc 100 200 = -100 := by
  norm_num [compressionRatioCalc, jsRound]

/-- C1 counterexample: at original = 100 bytes and compressed = 200
bytes the code's `compressionRatio` is −100 — outside [0,100] and not
`round(savedBytes/original × 100)` (which is 0) — and a successful
`CompressionResult` carrying ratio −100 is actually constructed by the
router in the grew-on-fetch world. -/
theorem ratio_out_of_range_counterexample :
    compressionRatioCalc 100 200 = -100 ∧
    ¬ (0 ≤ compressionRatioCalc 100 200 ∧ compressionRatioCalc 100 200 ≤ 100) ∧
    compressionRatioCalc 100 200
      ≠ jsRound ((savedBytesCalc 100 200 : ℚ) / ((100 : ℕ) : ℚ) * 100) ∧
    okRatio (routerCompress cInRouterSame cWorldGrew).1 = some (-100) := by
  have hsv : savedBytesCalc 100 200 = 0 := by norm_num [savedBytesCalc]
  refine ⟨ratioCalc_at_100_200, ?_, ?_, ?_⟩
  · rw [ratioCalc_at_100_200]
    norm_num
  · rw [ratioCalc_at_100_200, hsv]
    norm_num [jsRound]
  · rw [routerCompress_cWorldGrew]
    simp only [okRatio, assembleResult]
    simp [ratioCalc_at_100_200]

/-- C1 (amended): `savedBytes` is always `max(0, original − compressed)`
and hence non-negative — including in every successful router result —
but `compressionRatio` is computed from the signed difference: it equals
`round(savedBytes/original × 100)` and lies in [0,100] only when
`compressed ≤ original`; when `compressed > original` it is at most 0
and can be negative. -/
theorem metrics_amended (orig comp : ℕ) (h : 0 < orig) :
    0 ≤ savedBytesCalc orig comp ∧
    savedBytesCalc orig comp = max 0 ((orig : ℤ) - (comp : ℤ)) ∧
    (comp ≤ orig →
      compressionRatioCalc orig comp
        = jsRound ((savedBytesCalc orig comp : ℚ) / (orig : ℚ) * 100) ∧
      0 ≤ compressionRatioCalc orig comp ∧
      compressionRatioCalc orig comp ≤ 100) ∧
    (orig < comp → compressionRatioCalc orig comp ≤ 0) ∧
    (∀ (i : RouterInput) (w : World) (r : CompressionResult),
      (routerCompress i w).1 = ApiOut.ok r → 0 ≤ r.savedBytes) := by
  have horigQ : (0 : ℚ) < (orig : ℚ) := by exact_mod_cast h
  refine ⟨le_max_left 0 _, rfl, ?_, ?_, ?_⟩
  · intro hc
    have hcQ : (comp : ℚ) ≤ (orig : ℚ) := by exact_mod_cast hc
    have hsb : savedBytesCalc orig comp = (orig : ℤ) - (comp : ℤ) := by
      unfold savedBytesCalc
      exact max_eq_right (by omega)
    refine ⟨?_, ?_, ?_⟩
    · unfold compressionRatioCalc
      rw [hsb]
      congr 1
      push_cast
      ring
    · unfold compressionRatioCalc
      apply jsRound_nonneg
      exact mul_nonneg (div_nonneg (by linarith) horigQ.le) (by norm_num)
    · unfold compressionRatioCalc
      apply jsRound_le
      have h1 : ((orig : ℚ) - (comp : ℚ)) / (orig : ℚ) ≤ 1 := by
        rw [div_le_one horigQ]
        linarith
      push_cast
      nlinarith
  · intro hlt
    have hltQ : (orig : ℚ) < (comp : ℚ) := by exact_mod_cast hlt
    unfold compressionRatioCalc
    apply jsRound_le _ 0
    have h1 : ((orig : ℚ) - (comp : ℚ)) / (orig : ℚ) ≤ 0 :=
      div_nonpos_of_nonpos_of_nonneg (by linarith) horigQ.le
    push_cast
    nlinarith
  · intro i w r hok
    by_cases hi : w.imageFetch.ok = false
    · simp [routerCompress, hi] at hok
    · by_cases hs2 : w.shrinkOk = false
      · simp [routerCompress, hi, hs2] at hok
      · by_cases hcv : i.outputFormat ≠ i.mimeType
        · by_cases hco : w.convertOk = false
          · simp [routerCompress, hi, hs2, hcv, hco] at hok
          · by_cases hct : jsIncludes w.convertContentType "application/json" = true
            · have hr : routerCompress i w
                  = routerFinalize i w w.imageFetch.body w.convertOut.url
                      [Call.fetchImage, Call.shrinkPost,
                       Call.convertPost w.shrinkOut.url] := by
                simp [routerCompress, hi, hs2, hcv, hco, hct]
              rw [hr] at hok
              have hre := routerFinalize_ok _ _ _ _ _ _ hok
              subst hre
              exact le_max_left 0 _
            · have hct' : jsIncludes w.convertContentType "application/json" = false := by
                simpa using hct
              simp [routerCompress, hi, hs2, hcv, hco, hct'] at hok
              subst hok
              simp
        · have hcv' : i.outputFormat = i.mimeType := not_not.mp hcv
          have hr : routerCompress i w
              = routerFinalize i w w.imageFetch.body w.shrinkOut.url
                  [Call.fetchImage, Call.shrinkPost] := by
            simp [routerCompress, hi, hs2, hcv']
          rw [hr] at hok
          have hre := routerFinalize_ok _ _ _ _ _ _ hok
          subst hre
          exact le_max_left 0 _

/-- Witness for the amended C1 at original = 100, compressed = 50. -/
theorem metrics_amended_witness :
    0 ≤ savedBytesCalc 100 50 ∧
    savedBytesCalc 100 50 = max 0 ((100 : ℤ) - (50 : ℤ)) ∧
    (50 ≤ 100 →
      compressionRatioCalc 100 50
        = jsRound ((savedBytesCalc 100 50 : ℚ) / ((100 : ℕ) : ℚ) * 100) ∧
      0 ≤ compressionRatioCalc 100 50 ∧
      compressionRatioCalc 100 50 ≤ 100) ∧
    (100 < 50 → compressionRatioCalc 100 50 ≤ 0) ∧
    (∀ (i : RouterInput) (w : World) (r : CompressionResult),
      (routerCompress i w).1 = ApiOut.ok r → 0 ≤ r.savedBytes) :=
  metrics_amended 100 50 (by norm_num)
